import Mathlib

/-!
Verification development for the request lifecycle engine of the
mcp-phone-a-friend server.  Definitions are a shallow embedding of the
TypeScript source: src/db/store.ts (store and hashing), the turn runner
(runTurn / checkOrWait), src/handlers/advice.ts (sync engine),
src/handlers/advice-async.ts (async handler), the unified advice router and
the error taxonomy (errors.ts).  Theorems settle the testable properties
stated in spec.md against this embedding.
-/

namespace Spec2Proof

/-! ## JSON values and serialization (src/db/store.ts stableHash) -/

/-- JSON values as they flow through the hashing logic of the store.  Numbers are
restricted to integers, which covers every value the engine ever hashes. -/
inductive Json where
  | null
  | bool (b : Bool)
  | num (n : Int)
  | str (s : String)
  | arr (elems : List Json)
  | obj (props : List (String × Json))

/-- Quote a JSON string.  Escaping of quotes and backslashes is omitted: no
string the engine serializes contains either character. -/
def jsonQuote (s : String) : String := "\"" ++ s ++ "\""

def joinComma (parts : List String) : String := String.intercalate "," parts

/-- Render one primitive JSON scalar. -/
def scalarToString : Json → String
  | .null => "null"
  | .bool true => "true"
  | .bool false => "false"
  | .num n => toString n
  | .str s => jsonQuote s
  | .arr _ => ""
  | .obj _ => ""

/-- Given the replacer array P of JSON.stringify and the already-serialized
properties of an object, keep exactly the properties named in P, in the
order P lists them (ECMA-262 SerializeJSONObject with a PropertyList). -/
def selectProps (P : List String) (pairs : List (String × String)) : List String :=
  P.filterMap (fun k => (pairs.find? (fun p => p.1 == k)).map (·.2))

mutual

/-- The function JSON.stringify(value, P) where P is a replacer array: at every object
depth only the keys listed in P are serialized, in the order of P; array
elements are always serialized (store.ts:152 uses this with
P = Object.keys(input).sort()). -/
def stringifyWith (P : List String) : Json → String
  | .arr elems => "[" ++ joinComma (stringifyWithArr P elems) ++ "]"
  | .obj props => "\x7b" ++ joinComma (selectProps P (stringifyWithProps P props)) ++ "\x7d"
  | v => scalarToString v

def stringifyWithArr (P : List String) : List Json → List String
  | [] => []
  | v :: vs => stringifyWith P v :: stringifyWithArr P vs

def stringifyWithProps (P : List String) : List (String × Json) → List (String × String)
  | [] => []
  | (k, v) :: kvs =>
      (k, jsonQuote k ++ ":" ++ stringifyWith P v) :: stringifyWithProps P kvs

end

mutual

/-- Plain JSON.stringify (no replacer): every key, insertion order. -/
def jsonToString : Json → String
  | .arr elems => "[" ++ joinComma (jsonToStringArr elems) ++ "]"
  | .obj props => "\x7b" ++ joinComma (jsonToStringProps props) ++ "\x7d"
  | v => scalarToString v

def jsonToStringArr : List Json → List String
  | [] => []
  | v :: vs => jsonToString v :: jsonToStringArr vs

def jsonToStringProps : List (String × Json) → List String
  | [] => []
  | (k, v) :: kvs => (jsonQuote k ++ ":" ++ jsonToString v) :: jsonToStringProps kvs

end

/-- Code-unit comparison of strings, the order Array.prototype.sort uses on
string keys (for the ASCII keys of the registry this is plain lexicographic
order). -/
def charListLe : List Char → List Char → Bool
  | [], _ => true
  | _ :: _, [] => false
  | c :: cs, d :: ds =>
      if c.toNat < d.toNat then true
      else if d.toNat < c.toNat then false
      else charListLe cs ds

def strLe (a b : String) : Bool := charListLe a.toList b.toList

def isJsWhitespace (c : Char) : Bool :=
  c == ' ' || c == '\t' || c == '\n' || c == '\r'

/-- Model of String.prototype.trim. -/
def jsTrim (s : String) : String :=
  String.mk (((s.toList.dropWhile isJsWhitespace).reverse.dropWhile isJsWhitespace).reverse)

/-- Insert a string into a sorted list (model of Array.prototype.sort). -/
def insertSortedStr (x : String) : List String → List String
  | [] => [x]
  | y :: ys => if strLe x y then x :: y :: ys else y :: insertSortedStr x ys

def sortStrings : List String → List String
  | [] => []
  | x :: xs => insertSortedStr x (sortStrings xs)

def insertSortedPair (x : String × String) : List (String × String) → List (String × String)
  | [] => [x]
  | y :: ys => if strLe x.1 y.1 then x :: y :: ys else y :: insertSortedPair x ys

def sortPairsByKey : List (String × String) → List (String × String)
  | [] => []
  | x :: xs => insertSortedPair x (sortPairsByKey xs)

mutual

/-- Modelled from the spec: canonical_json, which serializes every key at
every object depth, keys in lexicographic order (spec.md section 3, Input
Hash).  This is the spec-side definition used to compare against the
stableHash serialization of the source. -/
def canonicalJson : Json → String
  | .arr elems => "[" ++ joinComma (canonicalJsonArr elems) ++ "]"
  | .obj props => "\x7b" ++ joinComma ((sortPairsByKey (canonicalJsonProps props)).map (·.2)) ++ "\x7d"
  | v => scalarToString v

def canonicalJsonArr : List Json → List String
  | [] => []
  | v :: vs => canonicalJson v :: canonicalJsonArr vs

def canonicalJsonProps : List (String × Json) → List (String × String)
  | [] => []
  | (k, v) :: kvs => (k, jsonQuote k ++ ":" ++ canonicalJson v) :: canonicalJsonProps kvs

end

/-- The key list Object.keys of a JSON value as store.ts:152 applies it: the own
enumerable property names of the top-level value.  stableHash is only ever
called on an object literal, so non-objects map to the empty key list. -/
def jsObjectKeys : Json → List String
  | .obj props => props.map (·.1)
  | _ => []

/-- stableHash from src/db/store.ts:151-154:
JSON.stringify(input, Object.keys(input).sort()) fed to sha256.  The model
keeps the pre-digest serialization string itself: sha256 is a fixed
injective-on-this-corpus digest applied identically to both sides of every
comparison the engine makes, so equality and inequality of hashes coincide
with equality and inequality of these strings. -/
def stableHash (input : Json) : String :=
  stringifyWith (sortStrings (jsObjectKeys input)) input

/-! ## The conversation/request store (src/db/store.ts) -/

/-- Request status column values (store.ts RequestStatus). -/
inductive RequestStatus where
  | queued
  | in_progress
  | completed
  | failed
  | cancelled
  | expired
deriving DecidableEq, Repr

/-- A row of the conversations table. -/
structure ConversationRow where
  id : Int
  title : Option String
  created_at : Nat
  updated_at : Nat
deriving DecidableEq, Repr

/-- A row of the messages table (store.ts MessageRow).  conversation_id is an
Int because the async handler can feed parseInt results straight into the
store and SQLite enforces no foreign key here (PRAGMA foreign_keys is never
enabled). -/
structure MessageRow where
  id : Nat
  conversation_id : Int
  role : String
  content : String
  created_at : Nat
  seq : Nat
  request_id : Option Nat
deriving DecidableEq, Repr

/-- A row of the requests table (store.ts RequestRow). -/
structure RequestRow where
  id : Nat
  conversation_id : Int
  message_id : Nat
  model : String
  params_json : String
  input_hash : String
  openai_response_id : Option String
  status : RequestStatus
  error_json : Option String
  tries : Nat
  started_at : Option Nat
  completed_at : Option Nat
  output_text : Option String
  raw_json : Option String
  usage_json : Option String
  created_at : Nat
  updated_at : Nat
deriving DecidableEq, Repr

/-- In-memory image of the SQLite store, plus the process clock (Date.now()
is read through ChatStore.now; sleeps advance the clock). -/
structure ChatStore where
  conversations : List ConversationRow
  messages : List MessageRow
  requests : List RequestRow
  nextConversationId : Int
  nextMessageId : Nat
  nextRequestId : Nat
  clock : Nat
deriving DecidableEq, Repr

def ChatStore.empty : ChatStore :=
  { conversations := [], messages := [], requests := [],
    nextConversationId := 1, nextMessageId := 1, nextRequestId := 1, clock := 0 }

/-- INSERT INTO conversations, returning lastInsertRowid (store.ts:103). -/
def createConversation (s : ChatStore) (title : Option String) : Int × ChatStore :=
  let now := s.clock
  let id := s.nextConversationId
  (id, { s with
    conversations := s.conversations ++
      [{ id := id, title := title, created_at := now, updated_at := now }],
    nextConversationId := id + 1 })

/-- Insert a message row keeping the list ordered by seq (the
UNIQUE(conversation_id, seq) constraint plus ORDER BY seq read below). -/
def insertBySeq (m : MessageRow) : List MessageRow → List MessageRow
  | [] => [m]
  | x :: xs =>
      if m.conversation_id == x.conversation_id && x.seq > m.seq then m :: x :: xs
      else x :: insertBySeq m xs

/-- SELECT * FROM messages WHERE conversation_id = ? ORDER BY seq ASC
(store.ts:117-122).  Note: an unknown conversation id yields an empty list;
this query never throws. -/
def getMessages (s : ChatStore) (conversationId : Int) : List MessageRow :=
  s.messages.filter (fun m => m.conversation_id == conversationId)

/-- appendMessage (store.ts:124-149): seq := MAX(seq)+1 for the
conversation, insert the message and bump the updated_at of the conversation in
one transaction. -/
def appendMessage (s : ChatStore) (conversationId : Int) (role content : String)
    (requestId : Option Nat) : Nat × ChatStore :=
  let now := s.clock
  let maxSeq := ((getMessages s conversationId).map (·.seq)).foldl max 0
  let seq := maxSeq + 1
  let id := s.nextMessageId
  let row : MessageRow :=
    { id := id, conversation_id := conversationId, role := role, content := content,
      created_at := now, seq := seq, request_id := requestId }
  (id, { s with
    messages := insertBySeq row s.messages,
    nextMessageId := id + 1,
    conversations := s.conversations.map (fun c =>
      if c.id == conversationId then { c with updated_at := now } else c) })

/-- upsertRequest (store.ts:156-199): hash {model, input, params} with
stableHash, SELECT by (conversation_id, input_hash), on miss INSERT a fresh
row with status queued and tries 0. -/
def upsertRequest (s : ChatStore) (conversationId : Int) (messageId : Nat)
    (model : String) (params : Json) (inputForHash : Json) : RequestRow × ChatStore :=
  let now := s.clock
  let input_hash := stableHash (.obj
    [("model", .str model), ("input", inputForHash), ("params", params)])
  let params_json := jsonToString params
  match s.requests.find? (fun r =>
      r.conversation_id == conversationId && r.input_hash == input_hash) with
  | some existing => (existing, s)
  | none =>
      let id := s.nextRequestId
      let row : RequestRow :=
        { id := id, conversation_id := conversationId, message_id := messageId,
          model := model, params_json := params_json, input_hash := input_hash,
          openai_response_id := none, status := .queued, error_json := none,
          tries := 0, started_at := none, completed_at := none,
          output_text := none, raw_json := none, usage_json := none,
          created_at := now, updated_at := now }
      (row, { s with requests := s.requests ++ [row], nextRequestId := id + 1 })

/-- UPDATE the request row with the given id. -/
def updateRequest (s : ChatStore) (id : Nat) (f : RequestRow → RequestRow) : ChatStore :=
  { s with requests := s.requests.map (fun r => if r.id == id then f r else r) }

/-- markRequestStarted (store.ts:201-207). -/
def markRequestStarted (s : ChatStore) (id : Nat) (openaiId : String) : ChatStore :=
  let now := s.clock
  updateRequest s id (fun r =>
    { r with openai_response_id := some openaiId, status := .in_progress,
             started_at := some now, updated_at := now })

/-- The status saveInProgressStatus writes for a given upstream status
string (store.ts:211): in_progress if the upstream says in_progress, else
queued. -/
def inProgressStatusOf (openaiStatus : String) : RequestStatus :=
  if openaiStatus == "in_progress" then .in_progress else .queued

/-- saveInProgressStatus (store.ts:209-216). -/
def saveInProgressStatus (s : ChatStore) (id : Nat) (openaiStatus : String) : ChatStore :=
  let now := s.clock
  updateRequest s id (fun r =>
    { r with status := inProgressStatusOf openaiStatus, updated_at := now })

/-- saveCompletion (store.ts:218-231): one UPDATE sets status completed,
completed_at, output_text, raw_json and usage_json together. -/
def saveCompletion (s : ChatStore) (id : Nat) (outputText rawJson usageJson : String) :
    ChatStore :=
  let now := s.clock
  updateRequest s id (fun r =>
    { r with status := .completed, completed_at := some now, updated_at := now,
             output_text := some outputText, raw_json := some rawJson,
             usage_json := some usageJson })

/-- saveFailure (store.ts:233-239). -/
def saveFailure (s : ChatStore) (id : Nat) (errorJson : String)
    (status : RequestStatus) : ChatStore :=
  let now := s.clock
  updateRequest s id (fun r =>
    { r with status := status, error_json := some errorJson, updated_at := now })

/-- incrementTries (store.ts:241-244). -/
def incrementTries (s : ChatStore) (id : Nat) : ChatStore :=
  updateRequest s id (fun r => { r with tries := r.tries + 1 })

/-- linkAssistantMessage (store.ts:246-248). -/
def linkAssistantMessage (s : ChatStore) (conversationId : Int) (requestId : Nat)
    (content : String) : Nat × ChatStore :=
  appendMessage s conversationId "assistant" content (some requestId)

/-- getRequestById (store.ts:250-253). -/
def getRequestById (s : ChatStore) (id : Nat) : Option RequestRow :=
  s.requests.find? (fun r => r.id == id)

/-! ## The async engine: turn runner and poller (config.ts runTurn / checkOrWait,
src/clients/openai-async.ts) -/

/-- JavaScript truthiness of a nullable string: non-null and non-empty. -/
def jsTruthy : Option String → Bool
  | some t => !(t == "")
  | none => false

/-- The x || d defaulting idiom on a nullable number: undefined and 0 are
both falsy and give the default. -/
def jsOr (o : Option Nat) (d : Nat) : Nat :=
  match o with
  | none => d
  | some 0 => d
  | some n => n

/-- Models that support the Responses API (openai-async.ts:13-25). -/
def RESPONSES_API_MODELS : List String :=
  ["gpt-4o", "gpt-4o-mini", "gpt-4o-2024-11-20", "gpt-4o-2024-08-06",
   "gpt-4o-audio-preview", "gpt-4o-audio-preview-2024-12-17",
   "o1", "o1-mini", "o1-preview", "o3", "o3-mini"]

/-- The AsyncResponse shape the OpenAI client returns (openai-async.ts:74-99).
content models choices[0].message.content; the client only materializes a
choices array when the output text is non-empty, so presence of a first
choice coincides with content being some. -/
structure AsyncResponse where
  id : String
  status : String
  content : Option String
  usageJson : Option String
  errorMessage : Option String
deriving DecidableEq, Repr

/-- One upstream HTTP interaction: either the awaited promise rejects, or a
response value is produced. -/
inductive UpstreamStep where
  | throws (message : String)
  | ok (resp : AsyncResponse)
deriving Repr

/-- The upstream oracle for one engine call: the result of
createAsyncResponse, and the result of the n-th getResponseById poll. -/
structure Upstream where
  create : UpstreamStep
  poll : Nat → UpstreamStep

/-- TurnResult (config.ts:210-213). -/
inductive TurnResult where
  | completed (text : String) (requestId : Nat) (usageJson : Option String)
  | waiting (requestId : Nat) (openaiId : Option String)
  | error (message : String) (requestId : Nat)
deriving DecidableEq, Repr

def TurnResult.reqId : TurnResult → Nat
  | .completed _ rid _ => rid
  | .waiting rid _ => rid
  | .error _ rid => rid

/-- Engine-level events, in execution order: upstream traffic, request
status writes, and semaphore operations. -/
inductive Event where
  | upstreamCreate
  | upstreamPoll
  | statusWrite (st : RequestStatus)
  | probeCall
  | structuredCall
  | textCall
  | acquire (provider : String)
  | release (provider : String)
deriving DecidableEq, Repr

/-- Trim history to the last maxHistory entries
(config.ts buildMessagesForOpenAI, slice from max(0, len - maxHistory)). -/
def buildMessagesForOpenAI (messages : List (String × String)) (maxHistory : Nat) :
    List (String × String) :=
  messages.drop (messages.length - maxHistory)

/-- The messages array as the JSON value that is hashed. -/
def messagesJson (msgs : List (String × String)) : Json :=
  .arr (msgs.map (fun m => .obj [("role", .str m.1), ("content", .str m.2)]))

/-- TurnOptions (config.ts:190-208); temperature and friends are numbers in
the source, integers here. -/
structure TurnOptions where
  model : String
  temperature : Option Int := none
  top_p : Option Int := none
  max_completion_tokens : Option Int := none
  reasoning_effort : Option String := none
  verbosity : Option String := none
  overallTimeoutMs : Option Nat := none
  initialPollDelayMs : Option Nat := none
  maxPollDelayMs : Option Nat := none
  maxHistoryMessages : Option Nat := none
deriving Repr

/-- The params object runTurn builds (config.ts:257-263).  In the source the
five keys are always assigned, possibly with value undefined;
JSON.stringify drops undefined-valued keys, so the object is modeled with
exactly its defined properties, in source insertion order. -/
def turnParamsJson (opts : TurnOptions) : Json :=
  .obj
    ((match opts.temperature with | some t => [("temperature", Json.num t)] | none => []) ++
     (match opts.top_p with | some t => [("top_p", Json.num t)] | none => []) ++
     (match opts.max_completion_tokens with
      | some t => [("max_completion_tokens", Json.num t)] | none => []) ++
     (match opts.reasoning_effort with
      | some e => [("reasoning_effort", Json.str e)] | none => []) ++
     (match opts.verbosity with | some v => [("verbosity", Json.str v)] | none => []))

def statusString : RequestStatus → String
  | .queued => "queued"
  | .in_progress => "in_progress"
  | .completed => "completed"
  | .failed => "failed"
  | .cancelled => "cancelled"
  | .expired => "expired"

/-- The RequestStatus cast of an upstream failure status string
(runTurn passes response.status straight to saveFailure inside a guard that
admits exactly these three values). -/
def failStatusOf (st : String) : RequestStatus :=
  if st == "cancelled" then .cancelled
  else if st == "expired" then .expired
  else .failed

/-- Stand-in for JSON.stringify(response) stored into raw_json: an injective
rendering of the response header.  No claim inspects raw_json. -/
def serializeResp (r : AsyncResponse) : String :=
  "\x7b" ++ jsonQuote "id" ++ ":" ++ jsonQuote r.id ++ "," ++
    jsonQuote "status" ++ ":" ++ jsonQuote r.status ++ "\x7d"

/-- The string JSON.stringify(response.error ?? null) as saveFailure receives it. -/
def errJsonOf (r : AsyncResponse) : String :=
  match r.errorMessage with
  | some m => jsonToString (.obj [("message", .str m)])
  | none => "null"

/-- The failure message the engine reports:
response.error?.message || "Request " + response.status. -/
def failMessageOf (r : AsyncResponse) : String :=
  match r.errorMessage with
  | some m => if m == "" then "Request " ++ r.status else m
  | none => "Request " ++ r.status

/-- Outcome of the poll loop body shared by runTurn step 7 and checkOrWait. -/
inductive PollOutcome where
  | done (text : String) (usageJson : Option String)
  | failedStatus (status : String) (message : String)
  | timedOut
deriving DecidableEq, Repr

/-- The poll loop of config.ts:404-463 and 523-556 (the two sites are
line-for-line the same loop): while the elapsed clock is below the budget,
sleep the current interval, query getResponseById, and either persist a
completed or failed outcome and stop, or persist the still-running status,
grow the interval by 1.5x capped at maxInterval, and go round.  A rejection
of the poll promise is caught, logged and ignored.  Nat division renders
the 1.5x growth as interval * 3 / 2; fuel makes the recursion structural
and is chosen by the callers to exceed the iteration count the budget
admits, so the fuel-out branch returns the same timed-out outcome the
budget check would. -/
def pollLoop (poll : Nat → UpstreamStep) (requestId : Nat) (conversationId : Int)
    (startTime timeout maxInterval : Nat) :
    Nat → Nat → Nat → ChatStore → PollOutcome × ChatStore × List Event
  | 0, _, _, s => (.timedOut, s, [])
  | fuel + 1, interval, k, s =>
    if s.clock - startTime < timeout then
      let s1 := { s with clock := s.clock + interval }
      match poll k with
      | .throws _ =>
          let r := pollLoop poll requestId conversationId startTime timeout maxInterval
            fuel interval (k + 1) s1
          (r.1, r.2.1, .upstreamPoll :: r.2.2)
      | .ok resp =>
          match (if resp.status == "completed" then resp.content else none) with
          | some text =>
              let s2 := saveCompletion s1 requestId text (serializeResp resp)
                (resp.usageJson.getD "null")
              let s3 := (linkAssistantMessage s2 conversationId requestId text).2
              (.done text resp.usageJson, s3, [.upstreamPoll, .statusWrite .completed])
          | none =>
              if resp.status == "failed" || resp.status == "cancelled" ||
                  resp.status == "expired" then
                let s2 := saveFailure s1 requestId (errJsonOf resp) (failStatusOf resp.status)
                (.failedStatus resp.status (failMessageOf resp), s2,
                 [.upstreamPoll, .statusWrite (failStatusOf resp.status)])
              else
                let s2 := saveInProgressStatus s1 requestId resp.status
                let r := pollLoop poll requestId conversationId startTime timeout maxInterval
                  fuel (min (interval * 3 / 2) maxInterval) (k + 1) s2
                (r.1, r.2.1, .upstreamPoll :: .statusWrite (inProgressStatusOf resp.status) :: r.2.2)
    else (.timedOut, s, [])

/-- Step 7 of runTurn (config.ts:396-486): poll when the model supports the
Responses API and an upstream id is at hand, else fall through to the final
waiting return with whatever openaiId is in scope. -/
def runTurnPoll (up : Upstream) (s : ChatStore) (conversationId : Int)
    (requestId : Nat) (supportsResponsesAPI : Bool) (openaiId : Option String)
    (opts : TurnOptions) (tracePrefix : List Event) :
    TurnResult × ChatStore × List Event :=
  if supportsResponsesAPI && jsTruthy openaiId then
    let timeout := jsOr opts.overallTimeoutMs 30000
    let pollInterval := jsOr opts.initialPollDelayMs 1000
    let maxPollInterval := jsOr opts.maxPollDelayMs 5000
    let r := pollLoop up.poll requestId conversationId s.clock timeout maxPollInterval
      (timeout + 1) pollInterval 0 s
    match r.1 with
    | .done text usage => (.completed text requestId usage, r.2.1, tracePrefix ++ r.2.2)
    | .failedStatus _ msg => (.error msg requestId, r.2.1, tracePrefix ++ r.2.2)
    | .timedOut => (.waiting requestId openaiId, r.2.1, tracePrefix ++ r.2.2)
  else
    (.waiting requestId openaiId, s, tracePrefix)

/-- runTurn (config.ts:240-486): append the user message, build the trimmed
history, upsert the request by stable hash, serve cache hits and
in-progress rows, otherwise open the upstream job and poll. -/
def runTurn (up : Upstream) (s0 : ChatStore) (conversationId : Int)
    (userText : String) (opts : TurnOptions) : TurnResult × ChatStore × List Event :=
  let ap := appendMessage s0 conversationId "user" userText none
  let userMessageId := ap.1
  let s1 := ap.2
  let history := (getMessages s1 conversationId).map (fun m => (m.role, m.content))
  let openaiMessages := buildMessagesForOpenAI history (opts.maxHistoryMessages.getD 50)
  let params := turnParamsJson opts
  let ur := upsertRequest s1 conversationId userMessageId opts.model params
    (messagesJson openaiMessages)
  let requestRow := ur.1
  let s2 := ur.2
  if requestRow.status == .completed && jsTruthy requestRow.output_text then
    let usage := if jsTruthy requestRow.usage_json then requestRow.usage_json else none
    (.completed (requestRow.output_text.getD "") requestRow.id usage, s2, [])
  else if requestRow.status == .in_progress && jsTruthy requestRow.openai_response_id then
    (.waiting requestRow.id requestRow.openai_response_id, s2, [])
  else
    let supportsResponsesAPI := RESPONSES_API_MODELS.contains opts.model
    if jsTruthy requestRow.openai_response_id then
      runTurnPoll up s2 conversationId requestRow.id supportsResponsesAPI
        requestRow.openai_response_id opts []
    else
      let s3 := incrementTries s2 requestRow.id
      match up.create with
      | .throws msg =>
          let s4 := saveFailure s3 requestRow.id (jsonQuote msg) .failed
          (.error msg requestRow.id, s4, [.upstreamCreate, .statusWrite .failed])
      | .ok resp =>
          let s4 := markRequestStarted s3 requestRow.id resp.id
          match (if resp.status == "completed" then resp.content else none) with
          | some text =>
              let s5 := saveCompletion s4 requestRow.id text (serializeResp resp)
                (resp.usageJson.getD "null")
              let s6 := (linkAssistantMessage s5 conversationId requestRow.id text).2
              (.completed text requestRow.id resp.usageJson, s6,
               [.upstreamCreate, .statusWrite .in_progress, .statusWrite .completed])
          | none =>
            if resp.status == "failed" then
              let s5 := saveFailure s4 requestRow.id (errJsonOf resp) .failed
              (.error (failMessageOf resp) requestRow.id, s5,
               [.upstreamCreate, .statusWrite .in_progress, .statusWrite .failed])
            else
              let s5 := saveInProgressStatus s4 requestRow.id resp.status
              runTurnPoll up s5 conversationId requestRow.id supportsResponsesAPI
                (some resp.id) opts
                [.upstreamCreate, .statusWrite .in_progress,
                 .statusWrite (inProgressStatusOf resp.status)]

/-- Result variants of checkOrWait (config.ts:495-498). -/
inductive CheckResult where
  | completed (text : String) (usageJson : Option String)
  | waiting
  | failedStatus (status : String)
deriving DecidableEq, Repr

/-- checkOrWait (config.ts:491-561): throws on an unknown request id, serves
stored outcomes, polls a queued or in-progress request with a recorded
upstream id for at most waitMs, and otherwise reports waiting. -/
def checkOrWait (up : Upstream) (s : ChatStore) (requestId : Nat) (waitMs : Nat) :
    Except String CheckResult × ChatStore × List Event :=
  match getRequestById s requestId with
  | none => (.error ("Unknown request ID: " ++ toString requestId), s, [])
  | some req =>
    if req.status == .completed && jsTruthy req.output_text then
      let usage := if jsTruthy req.usage_json then req.usage_json else none
      (.ok (.completed (req.output_text.getD "") usage), s, [])
    else if req.status == .failed || req.status == .cancelled || req.status == .expired then
      (.ok (.failedStatus (statusString req.status)), s, [])
    else if jsTruthy req.openai_response_id &&
        (req.status == .queued || req.status == .in_progress) then
      let r := pollLoop up.poll req.id req.conversation_id s.clock waitMs 5000
        (waitMs + 1) 1000 0 s
      match r.1 with
      | .done text usage => (.ok (.completed text usage), r.2.1, r.2.2)
      | .failedStatus st _ => (.ok (.failedStatus st), r.2.1, r.2.2)
      | .timedOut => (.ok .waiting, r.2.1, r.2.2)
    else (.ok .waiting, s, [])

/-! ## Error taxonomy (errors.ts) -/

/-- The data payload attached to wrapped provider errors.  retryAfterMs is
the field the spec says a rate-limit error carries; the source never sets
it. -/
structure ErrorData where
  provider : Option String := none
  originalError : Option String := none
  retryAfterMs : Option Nat := none
deriving DecidableEq, Repr

/-- MCPError (errors.ts:22-40). -/
structure MCPError where
  code : Int
  message : String
  data : ErrorData := {}
deriving DecidableEq, Repr

/-- The error value a provider call rejects with, as wrapProviderError reads
it: an http status, a message, and - when the upstream 429 response carried
a retry-after header - the suggested delay. -/
structure ProviderError where
  status : Option Int := none
  message : Option String := none
  retryAfterMs : Option Nat := none
deriving DecidableEq, Repr

/-- String inclusion s.includes(sub): sub occurs contiguously in s. -/
def strIncludes (s sub : String) : Bool :=
  (List.range (s.toList.length + 1)).any (fun i => sub.toList.isPrefixOf (s.toList.drop i))

/-- Evaluation of error.message?.includes(sub): false when message is null. -/
def msgIncludes (e : ProviderError) (sub : String) : Bool :=
  match e.message with
  | some m => strIncludes m sub
  | none => false

/-- wrapProviderError (errors.ts:87-119): 429 or a rate-limit message maps
to RateLimitError -32003 with data \x7bprovider, originalError\x7d; 401 or an
API-key message to ApiKeyMissing -32002; 404 or a model message to
ModelNotFound -32001; anything else to ProviderError -32000. -/
def wrapProviderError (error : ProviderError) (provider : String) : MCPError :=
  if error.status == some 429 || msgIncludes error "rate limit" then
    { code := -32003, message := "Rate limit exceeded for " ++ provider,
      data := { provider := some provider, originalError := error.message } }
  else if error.status == some 401 || msgIncludes error "API key" then
    { code := -32002, message := "Invalid or missing API key for " ++ provider,
      data := { provider := some provider } }
  else if error.status == some 404 || msgIncludes error "model" then
    { code := -32001, message := "Model not found or not available for " ++ provider,
      data := { provider := some provider, originalError := error.message } }
  else
    { code := -32000,
      message := "Provider error from " ++ provider ++ ": " ++
        (match error.message with
         | some m => if m == "" then "Unknown error" else m
         | none => "Unknown error"),
      data := { provider := some provider, originalError := error.message } }

/-! ## Sync engine (src/handlers/advice.ts) and the unified router -/

/-- Characters before the first colon. -/
def untilColon : List Char → List Char
  | [] => []
  | c :: cs => if c == ':' then [] else c :: untilColon cs

/-- Characters after the first colon, none when there is no colon. -/
def afterColon : List Char → Option (List Char)
  | [] => none
  | c :: cs => if c == ':' then some cs else afterColon cs

/-- The provider prefix: modelName.split(":")[0]. -/
def providerOf (model : String) : String := String.mk (untilColon model.toList)

/-- The base model name, modelName.split(":")[1] (empty string models the
undefined index access, which the handler only reaches for registered
provider-qualified ids). -/
def baseNameOf (model : String) : String :=
  match afterColon model.toList with
  | none => ""
  | some rest => String.mk (untilColon rest)

/-- Per-provider concurrency limiter capacities
(src/utils/optimization.ts:3-8). -/
def providerConcurrency : List (String × Nat) :=
  [("openai", 8), ("google", 6), ("anthropic", 6), ("xai", 4)]

/-- Model names with structuredOutput: true in the registry (config.ts, the
structuredOutputModels set advice.ts imports). -/
def structuredOutputModels : List String :=
  ["gpt-5", "gpt-5-mini", "gpt-5-nano", "gpt-4.1", "gpt-4.1-mini", "gpt-4.1-nano",
   "gpt-4o", "gemini-1.5-pro", "gemini-1.5-flash", "gemini-1.0-pro",
   "gemini-2.0-flash", "gemini-2.0-flash-preview-image-generation",
   "gemini-2.5-pro", "gemini-2.5-flash", "gemini-2.5-flash-lite",
   "claude-3-5-sonnet-20241022", "claude-3-5-haiku-20241022",
   "claude-3-opus-20240229", "claude-3-haiku-20240307",
   "claude-3-7-sonnet-20250219", "claude-opus-4-1-20250805",
   "claude-opus-4-20250514", "claude-sonnet-4-20250514"]

/-- Model names with reasoning: true in the registry (config.ts
reasoningModels). -/
def reasoningModels : List String :=
  ["gpt-5", "gpt-5-mini", "gpt-5-nano", "o3", "o3-mini", "o3-pro",
   "o3-pro-2025-06-10", "o3-deep-research", "o4-mini", "gemini-2.5-pro",
   "gemini-2.5-flash", "claude-opus-4-1-20250805", "claude-opus-4-20250514",
   "claude-sonnet-4-20250514", "grok-4"]

/-- Arguments of the advice tool as the sync handler reads them
(advice.ts:143-149). -/
structure AdviceArgs where
  model : String
  prompt : String
  conversation_id : Option String := none
  iteration : Option Nat := none
  additional_context : Option String := none
deriving Repr

/-- Upstream outcomes for one sync advice call: the verdict of the detection
probe, whether the structured call fails with a format error (400,
UNSUPPORTED_FORMAT or a structured timeout, which triggers the text
fallback), and the texts the structured and text endpoints return.  The
model covers the paths where the provider answers; thrown non-format errors
and the retry loop around them are outside the settled claims. -/
structure SyncOracle where
  probeOk : Bool
  structuredFormatError : Bool
  structuredText : String
  structuredNeedsContext : Bool
  textModeText : String
deriving Repr

/-- What the sync handler returns: content[0].text plus the metadata fields
the claims inspect. -/
structure AdviceResult where
  text : String
  status : String
  conversation_id : String
  response_format : Option String := none
  fallback_mode : Bool := false
deriving DecidableEq, Repr

/-- Iteration defaulting, args?.iteration || 1 (0 is falsy). -/
def iterationOf (args : AdviceArgs) : Nat :=
  match args.iteration with
  | none => 1
  | some 0 => 1
  | some n => n

/-- handleAdvice (advice.ts:139-312): validate, default the conversation id
and iteration, short-circuit above three iterations, reject unknown models,
then - inside withRetry - detect structured support (cache, else one shared
probe), call the structured or text endpoint with text fallback on format
errors, and finally pass the already-awaited result through the provider
limiter.  The returned trace lists upstream calls and limiter operations in
execution order. -/
def handleAdvice (args : AdviceArgs) (providers : List String) (cache : Option Bool)
    (oracle : SyncOracle) (uuid : String) : Except MCPError AdviceResult × List Event :=
  if jsTrim args.model == "" then
    (.error { code := -32602,
              message := "Invalid parameter \"model\": cannot be empty" }, [])
  else if jsTrim args.prompt == "" then
    (.error { code := -32602,
              message := "Invalid parameter \"prompt\": cannot be empty" }, [])
  else
  let conversationId :=
    match args.conversation_id with
    | some c => if c == "" then uuid else c
    | none => uuid
  let iteration := iterationOf args
  if iteration > 3 then
    (.ok { text := "Maximum context iterations reached. Please provide all necessary context upfront.",
           status := "complete", conversation_id := conversationId }, [])
  else if !(providers.contains args.model) then
    (.error { code := -32001,
              message := "Model \"" ++ args.model ++ "\" not found. Available models: " ++
                String.intercalate ", " providers }, [])
  else
    let baseModelName := baseNameOf args.model
    let detection : Bool × List Event :=
      match cache with
      | some b => (b, [])
      | none => (oracle.probeOk, [Event.probeCall])
    let supportsStructured := detection.1 || structuredOutputModels.contains baseModelName
    let callStep : AdviceResult × List Event :=
      if supportsStructured then
        if oracle.structuredFormatError then
          ({ text := oracle.textModeText, status := "complete",
             conversation_id := conversationId, response_format := some "text",
             fallback_mode := true },
           [Event.structuredCall, Event.textCall])
        else
          ({ text := oracle.structuredText,
             status := if oracle.structuredNeedsContext then "needs_context" else "complete",
             conversation_id := conversationId, response_format := some "structured" },
           [Event.structuredCall])
      else
        ({ text := oracle.textModeText, status := "complete",
           conversation_id := conversationId, response_format := some "text",
           fallback_mode := true },
         [Event.textCall])
    let providerKey := providerOf args.model
    let limiterTrace :=
      if (providerConcurrency.find? (fun p => p.1 == providerKey)).isSome then
        [Event.acquire providerKey, Event.release providerKey]
      else []
    (.ok callStep.1, detection.2 ++ callStep.2 ++ limiterTrace)

inductive Route where
  | async
  | sync
deriving DecidableEq, Repr

/-- The advice arguments the unified router looks at. -/
structure UnifiedArgs where
  model : String
  prompt : String
  conversation_id : Option String := none
  request_id : Option Nat := none
  check_status : Bool := false
deriving Repr

/-- The routing decision of handleUnifiedAdvice: async exactly when the
provider prefix of the model is openai, sync for everything else. -/
def routeAdvice (args : UnifiedArgs) : Route :=
  if providerOf args.model == "openai" then .async else .sync

/-- Modelled from the spec (section 4.6): route to the async engine iff the
provider offers a deferred-completion endpoint (only the OpenAI responses
endpoint, section 4.4) and check_status or conversation_id semantics are
used; otherwise the sync engine.  Spec-side definition for comparison with
routeAdvice. -/
def specRouteAdvice (args : UnifiedArgs) : Route :=
  if providerOf args.model == "openai" &&
      (args.check_status || args.conversation_id.isSome) then .async
  else .sync

/-! ## Conversation resolution of the async handler (advice-async.ts) -/

/-- Model of parseInt(s, 10): skip leading whitespace, optional sign, then the
leading run of digits; none models NaN. -/
def jsParseInt (s : String) : Option Int :=
  let t := s.toList.dropWhile isJsWhitespace
  let sign : Int := if t.headD ' ' == '-' then -1 else 1
  let body := if t.headD ' ' == '-' || t.headD ' ' == '+' then t.drop 1 else t
  let ds := body.takeWhile Char.isDigit
  if ds.isEmpty then none
  else some (sign * (ds.foldl (fun acc c => acc * 10 + (c.toNat - 48)) 0 : Nat))

/-- The conversation resolution block of handleAsyncAdvice
(advice-async.ts:110-128).  A supplied truthy id is parsed with parseInt
and then validated by calling getMessages inside try/catch - but
getMessages (store.ts:117-122) returns a plain, possibly empty list and
never throws, so the catch arm that would create a replacement conversation
is unreachable and the parsed id is used as-is.  Without an id (or with the
falsy empty string) a conversation titled New Conversation is created.
A none result models a NaN parse. -/
def resolveConversation (s : ChatStore) (conversation_id : Option String) :
    Option Int × ChatStore :=
  match conversation_id with
  | some cid =>
      if cid == "" then
        let r := createConversation s (some "New Conversation")
        (some r.1, r.2)
      else
        (jsParseInt cid, s)
  | none =>
      let r := createConversation s (some "New Conversation")
      (some r.1, r.2)

/-! ## Engine store operations as a transition system (for the reachability
invariants) -/

inductive FailKind where
  | failed
  | cancelled
  | expired
deriving DecidableEq, Repr

def FailKind.toStatus : FailKind → RequestStatus
  | .failed => .failed
  | .cancelled => .cancelled
  | .expired => .expired

/-- The store mutations the engine performs, with the argument shapes of its
call sites: saveFailure is only ever invoked with failed, cancelled or
expired (config.ts:359, 379, 431, 542), and saveCompletion always carries
output text, raw json and usage json (config.ts:339, 412, 531). -/
inductive EngineOp where
  | createConv (title : Option String)
  | appendMsg (conversationId : Int) (role content : String) (requestId : Option Nat)
  | upsertReq (conversationId : Int) (messageId : Nat) (model : String) (params input : Json)
  | markStarted (id : Nat) (openaiId : String)
  | saveProgress (id : Nat) (openaiStatus : String)
  | saveDone (id : Nat) (outputText rawJson usageJson : String)
  | saveFail (id : Nat) (errorJson : String) (kind : FailKind)
  | bumpTries (id : Nat)
  | tick (ms : Nat)

/-- One engine-issued store operation. -/
def engineStep (s : ChatStore) : EngineOp → ChatStore
  | .createConv title => (createConversation s title).2
  | .appendMsg c r cnt rid => (appendMessage s c r cnt rid).2
  | .upsertReq c m mo p i => (upsertRequest s c m mo p i).2
  | .markStarted id oid => markRequestStarted s id oid
  | .saveProgress id st => saveInProgressStatus s id st
  | .saveDone id t raw usage => saveCompletion s id t raw usage
  | .saveFail id e k => saveFailure s id e k.toStatus
  | .bumpTries id => incrementTries s id
  | .tick ms => { s with clock := s.clock + ms }

/-! ## Concrete stores, oracles and runs used by the claim theorems -/

/-- The hash input of a one-message turn: model m, a single user message
saying hi, empty params. -/
def hashProbeA : Json :=
  .obj [("model", .str "m"),
        ("input", .arr [.obj [("role", .str "user"), ("content", .str "hi")]]),
        ("params", .obj [])]

/-- Identical to hashProbeA except for the message content. -/
def hashProbeB : Json :=
  .obj [("model", .str "m"),
        ("input", .arr [.obj [("role", .str "user"), ("content", .str "BYE")]]),
        ("params", .obj [])]

/-- A 429 rejection whose upstream response suggested retrying in 5000 ms. -/
def rateLimited429 : ProviderError :=
  { status := some 429, message := some "Too Many Requests",
    retryAfterMs := some 5000 }

/-- A store holding exactly conversation 1. -/
def storeConv1 : ChatStore := (createConversation ChatStore.empty none).2

/-- The conversation id the sync handler reports:
args?.conversation_id || randomUUID(). -/
def conversationIdOf (args : AdviceArgs) (uuid : String) : String :=
  match args.conversation_id with
  | some c => if c == "" then uuid else c
  | none => uuid

def c7args : AdviceArgs := { model := "openai:gpt-4o", prompt := "hi", iteration := some 4 }

def c7oracle : SyncOracle :=
  { probeOk := true, structuredFormatError := false, structuredText := "s",
    structuredNeedsContext := false, textModeText := "t" }

def c3args : AdviceArgs := { model := "openai:gpt-4o", prompt := "hi" }

def c3oracle : SyncOracle :=
  { probeOk := true, structuredFormatError := false, structuredText := "ok",
    structuredNeedsContext := false, textModeText := "t" }

/-- The upstream oracle of a turn whose createAsyncResponse returns an
immediately completed response (a synchronous provider answer). -/
def upCompleted : Upstream :=
  { create := .ok { id := "r1", status := "completed", content := some "Hello!",
                    usageJson := none, errorMessage := none },
    poll := fun _ => .throws "unused" }

def turnOpts : TurnOptions := { model := "gpt-4o" }

/-- A store holding one fresh conversation. -/
def store1 : ChatStore := (createConversation ChatStore.empty none).2

def c1run1 : TurnResult × ChatStore × List Event :=
  runTurn upCompleted store1 1 "hi" turnOpts

def c1run2 : TurnResult × ChatStore × List Event :=
  runTurn upCompleted c1run1.2.1 1 "hi" turnOpts

/-- The sequence of status values runTurn writes for its request, in write
order. -/
def statusWrites (tr : List Event) : List RequestStatus :=
  tr.filterMap (fun e => match e with | .statusWrite st => some st | _ => none)

/-- The upstream oracle of a turn accepted asynchronously: create returns a
queued job, and every poll rejects. -/
def upQueuedJob : Upstream :=
  { create := .ok { id := "r2", status := "queued", content := none,
                    usageJson := none, errorMessage := none },
    poll := fun _ => .throws "network down" }

def c4opts : TurnOptions := { model := "gpt-4o", overallTimeoutMs := some 1 }

def c4run : TurnResult × ChatStore × List Event :=
  runTurn upQueuedJob store1 1 "hi" c4opts

/-- The step is a rejection of the upstream promise. -/
def UpstreamStep.isThrown : UpstreamStep → Prop
  | .throws _ => True
  | .ok _ => False

def alwaysThrowingPoll : Nat → UpstreamStep := fun _ => .throws "socket hang up"

/-- Invariant I3 of the spec: every completed request row has non-null
output_text and completed_at. -/
def CompletedRowsOk (s : ChatStore) : Prop :=
  ∀ r ∈ s.requests, r.status = .completed → r.output_text ≠ none ∧ r.completed_at ≠ none

/-- An engine run that queues a request in conversation 1 and completes it. -/
def c5ops : List EngineOp :=
  [.upsertReq 1 1 "m" (.obj []) (.obj []), .saveDone 1 "out" "raw" "usage"]

def c5store : ChatStore := c5ops.foldl engineStep ChatStore.empty

/-- The single request row of c5store after completion. -/
def c5row : RequestRow :=
  { id := 1, conversation_id := 1, message_id := 1, model := "m",
    params_json := "\x7b\x7d",
    input_hash := stableHash (.obj
      [("model", .str "m"), ("input", .obj []), ("params", .obj [])]),
    openai_response_id := none, status := .completed, error_json := none,
    tries := 0, started_at := none, completed_at := some 0,
    output_text := some "out", raw_json := some "raw", usage_json := some "usage",
    created_at := 0, updated_at := 0 }

/-- completed, failed, cancelled and expired are the terminal statuses. -/
def isTerminalStatus : RequestStatus → Bool
  | .queued => false
  | .in_progress => false
  | _ => true

/-- Every status in the list except possibly the last is non-terminal:
once a terminal status is written, nothing further is written. -/
def nontermButLast : List RequestStatus → Bool
  | [] => true
  | [_] => true
  | st :: rest => !isTerminalStatus st && nontermButLast rest

/-- The forward order of the spec: queued below in_progress below the
terminal statuses, reflexively. -/
def statusForward : RequestStatus → RequestStatus → Bool
  | .queued, _ => true
  | .in_progress, .queued => false
  | .in_progress, _ => true
  | a, b => a == b

/-- A permitted adjacent pair of status writes: forward, or the
in_progress-to-queued regression that saveInProgressStatus performs when
the upstream reports a non-in_progress status. -/
def statusStepOk (a b : RequestStatus) : Bool :=
  statusForward a b || (a == .in_progress && b == .queued)

def pairwiseStepOk : List RequestStatus → Bool
  | a :: b :: rest => statusStepOk a b && pairwiseStepOk (b :: rest)
  | _ => true

/-- The input hash runTurn computes for a call: the user message is
appended first, then the model, the trimmed history and the params are
hashed (mirror of runTurn steps 1-3, used to state the cache-hit law). -/
def runTurnInputHash (s : ChatStore) (conversationId : Int) (userText : String)
    (opts : TurnOptions) : String :=
  let s1 := (appendMessage s conversationId "user" userText none).2
  let history := (getMessages s1 conversationId).map (fun m => (m.role, m.content))
  let openaiMessages := buildMessagesForOpenAI history (opts.maxHistoryMessages.getD 50)
  stableHash (.obj [("model", .str opts.model), ("input", messagesJson openaiMessages),
    ("params", turnParamsJson opts)])

def cacheOpts : TurnOptions := { model := "gpt-4o" }

/-- A store with one conversation and no messages. -/
def cacheBase : ChatStore := (createConversation ChatStore.empty none).2

/-- The hash runTurn will compute for the call below. -/
def cacheSeedHash : String := runTurnInputHash cacheBase 1 "hi" cacheOpts

/-- A completed request row seeded under exactly that hash. -/
def cacheRow : RequestRow :=
  { id := 7, conversation_id := 1, message_id := 1, model := "gpt-4o",
    params_json := "\x7b\x7d", input_hash := cacheSeedHash,
    openai_response_id := some "r9", status := .completed, error_json := none,
    tries := 1, started_at := some 0, completed_at := some 5,
    output_text := some "cached!", raw_json := none, usage_json := none,
    created_at := 0, updated_at := 5 }

def cacheStore : ChatStore := { cacheBase with requests := [cacheRow], nextRequestId := 8 }

/-- An upstream that is never reached. -/
def upUnreachable : Upstream :=
  { create := .throws "unreachable", poll := fun _ => .throws "unreachable" }

/-! ## Claim theorems and supporting lemmas -/

/-- Claim C2: the input hash is claimed to be sha256 of the canonical JSON
of \x7bmodel, input, params\x7d with keys serialized lexicographically at every
depth.  In fact stableHash passes the sorted top-level keys as a
JSON.stringify replacer array, which filters every object at every depth
down to the keys input, model, params: the nested message keys role and
content are dropped, so the serialization differs from canonical JSON, and
two turns that differ only in message content hash identically.  The
top-level reordering law hash(\x7ba:1,b:2\x7d) = hash(\x7bb:2,a:1\x7d) does hold. -/
theorem stableHash_is_not_canonical :
    stableHash hashProbeA =
      "\x7b\"input\":[\x7b\x7d],\"model\":\"m\",\"params\":\x7b\x7d\x7d" ∧
    stableHash hashProbeA ≠ canonicalJson hashProbeA ∧
    stableHash hashProbeA = stableHash hashProbeB ∧
    canonicalJson hashProbeA ≠ canonicalJson hashProbeB ∧
    stableHash (.obj [("a", .num 1), ("b", .num 2)]) =
      stableHash (.obj [("b", .num 2), ("a", .num 1)]) :=
  ⟨by decide, by decide, by decide, by decide, by decide⟩

/-- Claim C6 (counterexample): an advice call for openai:gpt-4o with
neither check_status nor conversation_id is routed to the async engine by
handleUnifiedAdvice, while the claimed routing rule sends it to the sync
engine. -/
theorem routeAdvice_counterexample :
    routeAdvice { model := "openai:gpt-4o", prompt := "hi" } = .async ∧
    specRouteAdvice { model := "openai:gpt-4o", prompt := "hi" } = .sync :=
  ⟨by decide, by decide⟩

/-- Claim C6 (amended): the unified advice handler routes to the async
engine exactly when the provider prefix of the model is openai, regardless of
check_status or conversation_id; every other call goes to the sync
engine. -/
theorem routeAdvice_iff_openai (args : UnifiedArgs) :
    routeAdvice args = .async ↔ providerOf args.model = "openai" := by
  unfold routeAdvice
  by_cases h : providerOf args.model = "openai" <;> simp [h]

/-- Claim C8 (counterexample): wrapping a 429 that carries a
server-suggested 5000 ms retry delay yields code -32003 as claimed, but the
data payload carries no retry delay at all. -/
theorem wrapProviderError_drops_retry_delay :
    (wrapProviderError rateLimited429 "openai").code = -32003 ∧
    (wrapProviderError rateLimited429 "openai").data.retryAfterMs = none ∧
    rateLimited429.retryAfterMs = some 5000 :=
  ⟨by decide, by decide, by decide⟩

/-- Claim C8 (amended): every upstream error with HTTP status 429 surfaces
as code -32003 whose data carries the provider and the original message
only; the server-suggested retry delay is never included. -/
theorem wrapProviderError_on_429 (e : ProviderError) (p : String)
    (h : e.status = some 429) :
    (wrapProviderError e p).code = -32003 ∧
    (wrapProviderError e p).data =
      { provider := some p, originalError := e.message, retryAfterMs := none } := by
  unfold wrapProviderError
  simp [h]

/-- Claim C8 witness: the amended statement evaluated on the concrete 429
above. -/
theorem wrapProviderError_on_429_witness :
    rateLimited429.status = some 429 ∧
    (wrapProviderError rateLimited429 "openai").code = -32003 ∧
    (wrapProviderError rateLimited429 "openai").data =
      { provider := some "openai", originalError := some "Too Many Requests",
        retryAfterMs := none } :=
  ⟨rfl, (wrapProviderError_on_429 rateLimited429 "openai" rfl).1,
    (wrapProviderError_on_429 rateLimited429 "openai" rfl).2⟩

/-- Claim C9: evaluation at the failing input.  With only conversation 1
in the store, an async advice call supplying conversation_id "999" - which
resolves to no conversation - does not create a new conversation: the
validation calls getMessages, which returns an empty list instead of
throwing, so the unreachable catch never runs, the unresolved id 999 is
used as-is, and the subsequent user message is attached to the nonexistent
conversation 999. -/
theorem resolveConversation_unresolved :
    (resolveConversation storeConv1 (some "999")).1 = some 999 ∧
    (resolveConversation storeConv1 (some "999")).2 = storeConv1 ∧
    storeConv1.conversations.all (fun c => !(c.id == 999)) = true ∧
    ((appendMessage storeConv1 999 "user" "hi" none).2.messages.map
      (fun m => m.conversation_id)) = [999] :=
  ⟨by decide, by decide, by decide, by decide⟩

/-- Claim C7: a sync advice call whose iteration exceeds three returns the
terminal max-iterations message with status complete and an empty event
trace: no probe, no structured call, no text call, not even the model
lookup. -/
theorem handleAdvice_iteration_cap (args : AdviceArgs) (providers : List String)
    (cache : Option Bool) (oracle : SyncOracle) (uuid : String)
    (hm : jsTrim args.model ≠ "") (hp : jsTrim args.prompt ≠ "")
    (hi : 3 < iterationOf args) :
    handleAdvice args providers cache oracle uuid =
      (.ok { text := "Maximum context iterations reached. Please provide all necessary context upfront.",
             status := "complete", conversation_id := conversationIdOf args uuid },
       []) := by
  unfold handleAdvice conversationIdOf
  simp [hm, hp, hi]

/-- Claim C7 witness: iteration 4 on a concrete call. -/
theorem handleAdvice_iteration_cap_witness :
    jsTrim c7args.model ≠ "" ∧ 3 < iterationOf c7args ∧
    handleAdvice c7args ["openai:gpt-4o"] none c7oracle "u" =
      (.ok { text := "Maximum context iterations reached. Please provide all necessary context upfront.",
             status := "complete", conversation_id := "u" },
       []) :=
  ⟨by decide, by decide,
    handleAdvice_iteration_cap c7args ["openai:gpt-4o"] none c7oracle "u"
      (by decide) (by decide) (by decide)⟩

/-- Claim C3: code_bug evaluation.  On a successful openai:gpt-4o advice
call the sync engine issues the detection probe and the structured call
first and only then acquires and releases the provider limiter - the
limiter wraps the already-awaited result - so acquisition does not precede
the upstream send; and a full async turn (runTurn) never touches the
semaphore at all. -/
theorem semaphore_acquired_after_upstream_call :
    (handleAdvice c3args ["openai:gpt-4o"] none c3oracle "u").2 =
      [.probeCall, .structuredCall, .acquire "openai", .release "openai"] ∧
    ((runTurn upCompleted store1 1 "hi" turnOpts).2.2.all
      (fun e => match e with | .acquire _ => false | .release _ => false | _ => true)) = true :=
  ⟨by decide, by decide⟩

/-- Claim C1 (counterexample): two successive runTurn calls with the same
conversation, user text and options return different request ids - the
first call appends the user and assistant messages, so the second call
hashes a longer history, misses the cache, inserts a second Request row and
drives a second upstream call (its trace opens a fresh upstream job). -/
theorem runTurn_twice_different_requests :
    c1run1.1 = .completed "Hello!" 1 none ∧
    c1run2.1 = .completed "Hello!" 2 none ∧
    c1run1.1.reqId ≠ c1run2.1.reqId ∧
    c1run2.2.1.requests.length = 2 ∧
    c1run2.2.2.contains .upstreamCreate = true :=
  ⟨by decide, by decide, by decide, by decide, by decide⟩

/-- Claim C4 (counterexample): when createAsyncResponse reports the job as
queued, runTurn first writes in_progress (markRequestStarted) and then
immediately writes queued (saveInProgressStatus maps any non-in_progress
upstream status to queued), moving the request backwards from in_progress
to queued; the row ends the call with status queued although it was
in_progress moments earlier. -/
theorem runTurn_regresses_to_queued :
    statusWrites c4run.2.2 = [.in_progress, .queued] ∧
    c4run.1 = .waiting 1 (some "r2") ∧
    (getRequestById c4run.2.1 1).map (fun r => r.status) = some .queued :=
  ⟨by decide, by decide, by decide⟩

/-- Claim C10: inside the poll loop shared by runTurn and checkOrWait, a
rejection of the upstream status query is caught and ignored: with every
poll rejecting, the loop writes nothing to the store - the request rows and
messages are left exactly as they were, so the request is never moved to
failed - and the call ends, once the budget expires, with the timed-out
outcome that the callers surface as waiting, never with an error result. -/
theorem pollLoop_ignores_thrown_errors (poll : Nat → UpstreamStep) (requestId : Nat)
    (conversationId : Int) (startTime timeout maxInterval : Nat)
    (fuel interval k : Nat) (s : ChatStore)
    (h : ∀ n, (poll n).isThrown) :
    (pollLoop poll requestId conversationId startTime timeout maxInterval
        fuel interval k s).1 = .timedOut ∧
    (pollLoop poll requestId conversationId startTime timeout maxInterval
        fuel interval k s).2.1.requests = s.requests ∧
    (pollLoop poll requestId conversationId startTime timeout maxInterval
        fuel interval k s).2.1.messages = s.messages := by
  induction fuel generalizing interval k s with
  | zero => exact ⟨rfl, rfl, rfl⟩
  | succ n ih =>
      unfold pollLoop
      by_cases hg : s.clock - startTime < timeout
      · simp only [hg, if_true]
        cases hpk : poll k with
        | throws m =>
            simpa using ih interval (k + 1) { s with clock := s.clock + interval }
        | ok r =>
            have := h k
            rw [hpk] at this
            exact absurd this (by simp [UpstreamStep.isThrown])
      · simp [hg]

/-- Claim C10 witness: a three-second budget against an upstream whose
status endpoint always rejects. -/
theorem pollLoop_ignores_thrown_errors_witness :
    (pollLoop alwaysThrowingPoll 1 1 0 3000 5000 3001 1000 0 store1).1 = .timedOut ∧
    (pollLoop alwaysThrowingPoll 1 1 0 3000 5000 3001 1000 0 store1).2.1.requests =
      store1.requests ∧
    (pollLoop alwaysThrowingPoll 1 1 0 3000 5000 3001 1000 0 store1).2.1.messages =
      store1.messages :=
  pollLoop_ignores_thrown_errors alwaysThrowingPoll 1 1 0 3000 5000 3001 1000 0 store1
    (fun _ => trivial)

theorem mem_updateRequest (s : ChatStore) (id : Nat) (f : RequestRow → RequestRow)
    (r : RequestRow) (hr : r ∈ (updateRequest s id f).requests) :
    ∃ a ∈ s.requests, r = if a.id == id then f a else a := by
  unfold updateRequest at hr
  simp only [List.mem_map] at hr
  obtain ⟨a, ha, hra⟩ := hr
  exact ⟨a, ha, hra.symm⟩

theorem inProgressStatusOf_ne_completed (st : String) :
    inProgressStatusOf st ≠ .completed := by
  unfold inProgressStatusOf
  split <;> simp

theorem failKind_toStatus_ne_completed (k : FailKind) :
    k.toStatus ≠ .completed := by
  cases k <;> simp [FailKind.toStatus]

theorem completedRowsOk_engineStep (s : ChatStore) (op : EngineOp)
    (h : CompletedRowsOk s) : CompletedRowsOk (engineStep s op) := by
  cases op with
  | createConv title => exact h
  | appendMsg c role content rid => exact h
  | tick ms => exact h
  | upsertReq c m mo p i =>
      intro r hr hst
      simp only [engineStep, upsertRequest] at hr
      split at hr
      · exact h r hr hst
      · simp only [List.mem_append, List.mem_singleton] at hr
        rcases hr with hr | hr
        · exact h r hr hst
        · subst hr
          simp at hst
  | markStarted id oid =>
      intro r hr hst
      obtain ⟨a, ha, hcond⟩ := mem_updateRequest _ id _ r hr
      by_cases hid : (a.id == id) = true
      · rw [if_pos hid] at hcond
        subst hcond
        simp at hst
      · rw [if_neg hid] at hcond
        subst hcond
        exact h _ ha hst
  | saveProgress id st =>
      intro r hr hst
      obtain ⟨a, ha, hcond⟩ := mem_updateRequest _ id _ r hr
      by_cases hid : (a.id == id) = true
      · rw [if_pos hid] at hcond
        subst hcond
        exact absurd hst (inProgressStatusOf_ne_completed st)
      · rw [if_neg hid] at hcond
        subst hcond
        exact h _ ha hst
  | saveDone id t raw usage =>
      intro r hr hst
      obtain ⟨a, ha, hcond⟩ := mem_updateRequest _ id _ r hr
      by_cases hid : (a.id == id) = true
      · rw [if_pos hid] at hcond
        subst hcond
        simp
      · rw [if_neg hid] at hcond
        subst hcond
        exact h _ ha hst
  | saveFail id e k =>
      intro r hr hst
      obtain ⟨a, ha, hcond⟩ := mem_updateRequest _ id _ r hr
      by_cases hid : (a.id == id) = true
      · rw [if_pos hid] at hcond
        subst hcond
        exact absurd hst (failKind_toStatus_ne_completed k)
      · rw [if_neg hid] at hcond
        subst hcond
        exact h _ ha hst
  | bumpTries id =>
      intro r hr hst
      obtain ⟨a, ha, hcond⟩ := mem_updateRequest _ id _ r hr
      by_cases hid : (a.id == id) = true
      · rw [if_pos hid] at hcond
        subst hcond
        exact h a ha hst
      · rw [if_neg hid] at hcond
        subst hcond
        exact h _ ha hst

/-- Claim C5: in every store state reachable from the empty store by the
store operations of the engine, a request row with status completed has non-null
output text and completion timestamp - saveCompletion is the only operation
that writes completed, and it sets both in the same update. -/
theorem engineOps_completed_rows_ok (ops : List EngineOp) :
    CompletedRowsOk (ops.foldl engineStep ChatStore.empty) := by
  have start : CompletedRowsOk ChatStore.empty := by
    intro r hr
    simp [ChatStore.empty] at hr
  suffices h : ∀ s, CompletedRowsOk s → CompletedRowsOk (ops.foldl engineStep s) from
    h ChatStore.empty start
  induction ops with
  | nil => intro s hs; exact hs
  | cons op rest ih =>
      intro s hs
      exact ih (engineStep s op) (completedRowsOk_engineStep s op hs)

/-- Claim C5 witness: the invariant applied to the completed row of a
concrete engine run. -/
theorem engineOps_completed_rows_ok_witness :
    c5row ∈ c5store.requests ∧ c5row.status = .completed ∧
    c5row.output_text ≠ none ∧ c5row.completed_at ≠ none := by
  have hmem : c5row ∈ c5store.requests := by decide
  have hst : c5row.status = .completed := rfl
  have hc := engineOps_completed_rows_ok c5ops c5row hmem hst
  exact ⟨hmem, hst, hc.1, hc.2⟩

theorem statusStepOk_of_nonterm (a b : RequestStatus)
    (h : isTerminalStatus a = false) : statusStepOk a b = true := by
  cases a <;> cases b <;> simp_all [isTerminalStatus, statusStepOk, statusForward]

theorem nontermButLast_cons (x : RequestStatus) (l : List RequestStatus)
    (hx : isTerminalStatus x = false) :
    nontermButLast (x :: l) = nontermButLast l := by
  cases l <;> simp [nontermButLast, hx]

theorem nontermButLast_append (xs ys : List RequestStatus)
    (hxs : ∀ x ∈ xs, isTerminalStatus x = false)
    (hys : nontermButLast ys = true) :
    nontermButLast (xs ++ ys) = true := by
  induction xs with
  | nil => simpa using hys
  | cons x tl ih =>
      rw [List.cons_append, nontermButLast_cons x _ (hxs x (by simp))]
      exact ih (fun y hy => hxs y (by simp [hy]))

theorem nontermButLast_of_all (xs : List RequestStatus)
    (hxs : ∀ x ∈ xs, isTerminalStatus x = false) :
    nontermButLast xs = true := by
  induction xs with
  | nil => rfl
  | cons x tl ih =>
      rw [nontermButLast_cons x tl (hxs x (by simp))]
      exact ih (fun y hy => hxs y (by simp [hy]))

theorem pairwiseStepOk_of_nontermButLast (l : List RequestStatus)
    (h : nontermButLast l = true) : pairwiseStepOk l = true := by
  induction l with
  | nil => rfl
  | cons a tl ih =>
      cases tl with
      | nil => rfl
      | cons b r =>
          have h' : (!isTerminalStatus a && nontermButLast (b :: r)) = true := h
          simp only [Bool.and_eq_true, Bool.not_eq_true'] at h'
          have hab := statusStepOk_of_nonterm a b h'.1
          have ht := ih h'.2
          simp [pairwiseStepOk, hab, ht]

theorem inProgressStatusOf_nonterm (st : String) :
    isTerminalStatus (inProgressStatusOf st) = false := by
  unfold inProgressStatusOf
  split <;> rfl

theorem statusWrites_append (xs ys : List Event) :
    statusWrites (xs ++ ys) = statusWrites xs ++ statusWrites ys :=
  List.filterMap_append xs ys _

theorem nontermButLast_inProgress_cons (st : String) (l : List RequestStatus) :
    nontermButLast (inProgressStatusOf st :: l) = nontermButLast l :=
  nontermButLast_cons _ _ (inProgressStatusOf_nonterm st)

theorem pollLoop_statusWrites_nontermButLast (poll : Nat → UpstreamStep)
    (requestId : Nat) (conversationId : Int) (startTime timeout maxInterval : Nat) :
    ∀ (fuel interval k : Nat) (s : ChatStore),
      nontermButLast (statusWrites
        (pollLoop poll requestId conversationId startTime timeout maxInterval
          fuel interval k s).2.2) = true := by
  intro fuel
  induction fuel with
  | zero => intro interval k s; rfl
  | succ n ih =>
      intro interval k s
      unfold pollLoop
      by_cases hg : s.clock - startTime < timeout
      · simp only [hg, if_true]
        split
        · simpa [statusWrites] using ih interval (k + 1) { s with clock := s.clock + interval }
        · split
          · simp [statusWrites, nontermButLast]
          · split
            · simp [statusWrites, nontermButLast]
            · simp only [statusWrites, List.filterMap_cons, nontermButLast_inProgress_cons]
              simpa [statusWrites] using ih (min (interval * 3 / 2) maxInterval) (k + 1) _
      · simp only [hg, if_false]
        rfl

theorem runTurnPoll_statusWrites_nontermButLast (up : Upstream) (s : ChatStore)
    (c : Int) (reqId : Nat) (sup : Bool) (oid : Option String) (opts : TurnOptions)
    (pre : List Event)
    (hpre : ∀ x ∈ statusWrites pre, isTerminalStatus x = false) :
    nontermButLast (statusWrites (runTurnPoll up s c reqId sup oid opts pre).2.2) = true := by
  unfold runTurnPoll
  by_cases hb : (sup && jsTruthy oid) = true
  · simp only [hb, if_true]
    split <;>
      · simp only [statusWrites_append]
        exact nontermButLast_append _ _ hpre
          (pollLoop_statusWrites_nontermButLast up.poll reqId c s.clock
            (jsOr opts.overallTimeoutMs 30000) (jsOr opts.maxPollDelayMs 5000)
            (jsOr opts.overallTimeoutMs 30000 + 1) (jsOr opts.initialPollDelayMs 1000) 0 s)
  · simp only [hb, Bool.false_eq_true, if_false]
    exact nontermButLast_of_all _ hpre

/-- Claim C4 (amended): within a single runTurn execution the stream of
status writes is disciplined: a terminal status (completed, failed,
cancelled, expired) is only ever the last write - nothing is written after
it - and every adjacent pair of writes either moves forward on the order
queued, in_progress, terminal (reflexively) or is the one backward step
in_progress to queued that saveInProgressStatus performs when the upstream
reports the job as queued.  The unqualified monotonicity of the original
claim fails by runTurn_regresses_to_queued. -/
theorem runTurn_status_writes_ok (up : Upstream) (s : ChatStore) (c : Int)
    (t : String) (o : TurnOptions) :
    nontermButLast (statusWrites (runTurn up s c t o).2.2) = true ∧
    pairwiseStepOk (statusWrites (runTurn up s c t o).2.2) = true := by
  have main : nontermButLast (statusWrites (runTurn up s c t o).2.2) = true := by
    unfold runTurn
    simp only []
    repeat' split
    all_goals
      first
      | rfl
      | (apply runTurnPoll_statusWrites_nontermButLast
         intro x hx
         simp [statusWrites] at hx
         rcases hx with hx | hx <;> subst hx
         · rfl
         · exact inProgressStatusOf_nonterm _)
      | (apply runTurnPoll_statusWrites_nontermButLast
         intro x hx
         simp [statusWrites] at hx)
  exact ⟨main, pairwiseStepOk_of_nontermButLast _ main⟩

/-- Claim C1 (amended): a cache hit happens exactly when upsertRequest
finds an existing row for the conversation under the hash of the
post-append history - not on any two successive calls, which hash different
histories (runTurn_twice_different_requests).  When the row is there and
completed with stored text, runTurn returns the stored text and request id,
leaves the requests table untouched and makes no upstream call. -/
theorem runTurn_cache_hit (up : Upstream) (s : ChatStore) (c : Int) (t : String)
    (o : TurnOptions) (r : RequestRow)
    (hfind : s.requests.find? (fun row => row.conversation_id == c &&
        row.input_hash == runTurnInputHash s c t o) = some r)
    (hst : r.status = .completed) (hout : jsTruthy r.output_text = true) :
    (runTurn up s c t o).1 = .completed (r.output_text.getD "") r.id
      (if jsTruthy r.usage_json then r.usage_json else none) ∧
    (runTurn up s c t o).2.1.requests = s.requests ∧
    (runTurn up s c t o).2.2 = [] := by
  have happ : ((appendMessage s c "user" t none).2).requests = s.requests := by
    unfold appendMessage
    rfl
  simp only [runTurnInputHash] at hfind
  unfold runTurn upsertRequest
  simp only []
  rw [happ, hfind]
  simp [hst, hout, happ]

/-- Claim C1 witness: the cache-hit law applied to the seeded store. -/
theorem runTurn_cache_hit_witness :
    cacheStore.requests.find? (fun row => row.conversation_id == 1 &&
      row.input_hash == runTurnInputHash cacheStore 1 "hi" cacheOpts) = some cacheRow ∧
    (runTurn upUnreachable cacheStore 1 "hi" cacheOpts).1 = .completed "cached!" 7 none ∧
    (runTurn upUnreachable cacheStore 1 "hi" cacheOpts).2.1.requests = cacheStore.requests ∧
    (runTurn upUnreachable cacheStore 1 "hi" cacheOpts).2.2 = [] :=
  ⟨by decide,
    (runTurn_cache_hit upUnreachable cacheStore 1 "hi" cacheOpts cacheRow
      (by decide) rfl (by decide)).1,
    (runTurn_cache_hit upUnreachable cacheStore 1 "hi" cacheOpts cacheRow
      (by decide) rfl (by decide)).2.1,
    (runTurn_cache_hit upUnreachable cacheStore 1 "hi" cacheOpts cacheRow
      (by decide) rfl (by decide)).2.2⟩

end Spec2Proof
